import Mathlib

/-!
Shallow embedding of `autotranslate/services.py` (django-autotranslate).

The module defines three translator backends sharing one interface:
* `GoSlateTranslatorService`   — free web-based backend (goslate library);
* `GoogleAPITranslatorService` — paid Google API backend with chunked batching,
  a shared accumulation buffer `translated_strings` and a `request_count`;
* `YandexAPITranslatorService` — Yandex Cloud HTTP API backend with
  key/token-based auth, one POST per batch.

Network I/O is abstracted: each network call is replaced by a deterministic
stub (a per-item transform for the translation backends, a fixed
`HttpResponse` for the Yandex HTTP POST), and every model tracks the number
of network calls issued in a ghost counter so that claims about "number of
network calls" are statable.  Machine state that Python mutates on the
instance (`translated_strings`, `request_count`) is threaded explicitly.
-/

namespace Autotranslate

/-- Python values passed as the `strings` argument, abstracted to the three
shapes the services' input validation distinguishes:
a list of strings (a `MutableSequence`, iterable and indexable), a
generator over strings (iterable but not a `MutableSequence`), and a
non-iterable value such as an `int`. -/
inductive PyInput where
  | strList (strings : List String)
  | generator (strings : List String)
  | notIterable
deriving DecidableEq, Repr

/-- `isinstance(strings, collections.Iterable)` (services.py line 45). -/
def PyInput.isIterable : PyInput → Bool
  | .strList _ => true
  | .generator _ => true
  | .notIterable => false

/-- `isinstance(strings, collections.abc.MutableSequence)` (services.py line 84). -/
def PyInput.isMutableSequence : PyInput → Bool
  | .strList _ => true
  | .generator _ => false
  | .notIterable => false

/-- Errors raised by the services, following the spec's taxonomy:
`invalidArgument` models a failed input-shape `assert` (AssertionError),
`configurationError` a missing-credential `ValueError`, and
`remoteServiceError` the exceptions raised on a non-success HTTP status
(carrying the status code and body text) or an embedded `error` field in
the response JSON (status `none`, carrying the error payload). -/
inductive ServiceError where
  | invalidArgument
  | configurationError (msg : String)
  | remoteServiceError (statusCode : Option Nat) (detail : String)
deriving DecidableEq, Repr

/-! ## GoSlateTranslatorService (services.py lines 30-47) -/

namespace GoSlateTranslatorService

/-- Instance state: only a ghost counter of network calls issued by the
underlying `goslate` service (the class itself keeps no counters). -/
structure State where
  network_calls : Nat
deriving DecidableEq, Repr

/-- `GoSlateTranslatorService.translate_strings` (services.py lines 44-47).
`assert isinstance(strings, collections.Iterable)`, then one call of
`self.service.translate(strings, target_language, source_language)`,
abstracted as the deterministic per-item transform `stub`; `optimized`
only selects lazy vs materialized result, the items are the same. -/
def translate_strings (stub : String → String) (input : PyInput)
    (target_language source_language : String) (optimized : Bool)
    (st : State) : Except ServiceError (List String) × State :=
  match input with
  | .strList ss => (.ok (ss.map stub), { network_calls := st.network_calls + 1 })
  | .generator ss => (.ok (ss.map stub), { network_calls := st.network_calls + 1 })
  | .notIterable => (.error .invalidArgument, st)

end GoSlateTranslatorService

/-! ## GoogleAPITranslatorService (services.py lines 50-103) -/

namespace GoogleAPITranslatorService

/-- Instance state of `GoogleAPITranslatorService`:
`translated_strings` is the accumulation buffer (line 71, mutated at lines
90-94 and reset at line 102), `request_count` the counter of lines 59 and 93,
and `network_calls` a ghost counter incremented at every `.execute()` call
(lines 78-79 and 91-92). -/
structure State where
  translated_strings : List String
  request_count : Nat
  network_calls : Nat
deriving DecidableEq, Repr

/-- State of a freshly constructed instance (services.py lines 56-71):
empty buffer, zero request count. -/
def fresh : State := { translated_strings := [], request_count := 0, network_calls := 0 }

/-- `GoogleAPITranslatorService.translate_string` (services.py lines 76-81):
one `.execute()` network call for the single-element batch `[text]`, returning
its only translation.  Note the code does NOT increment `request_count` here;
only the ghost `network_calls` records the issued call. -/
def translate_string (stub : String → String) (text : String) (st : State) :
    String × State :=
  (stub text, { st with network_calls := st.network_calls + 1 })

/-- Recursive body of `GoogleAPITranslatorService.translate_strings`
(services.py lines 87-103), after the input-shape and `optimized` asserts:
* empty input returns `[]` with no state change (lines 87-88);
* a batch of at most `max_segments` issues one network call, increments
  `request_count`, extends the shared buffer `translated_strings` with the
  translations and returns the buffer (lines 89-95);
* a longer batch translates the first `max_segments` items (discarding the
  returned value, keeping the buffer side effect), recursively translates
  the remainder, then resets `translated_strings` to `[]` and returns the
  remainder call's result (lines 96-103).
The Python code diverges when `max_segments = 0` and the input is non-empty
(`strings[0:0]` never shrinks the remainder); the model returns `([], st)`
on that unreachable-in-practice branch so that the recursion terminates. -/
def translate_strings_go (stub : String → String) (max_segments : Nat) :
    List String → State → List String × State
  | strings, st =>
    if strings.length = 0 then ([], st)
    else if strings.length ≤ max_segments then
      let ts := st.translated_strings ++ strings.map stub
      (ts, { translated_strings := ts,
             request_count := st.request_count + 1,
             network_calls := st.network_calls + 1 })
    else if h : 0 < max_segments then
      let r₁ := translate_strings_go stub max_segments (strings.take max_segments) st
      let r₂ := translate_strings_go stub max_segments (strings.drop max_segments) r₁.2
      (r₂.1, { r₂.2 with translated_strings := [] })
    else ([], st)
  termination_by strings => strings.length
  decreasing_by
  · simp only [List.length_take]
    omega
  · simp only [List.length_drop]
    omega

/-- `GoogleAPITranslatorService.translate_strings` (services.py lines 83-103),
including the two asserts of lines 84-86: the input must be a
`MutableSequence` and `optimized` must be false, otherwise the call fails
with an AssertionError before touching the network or the state. -/
def translate_strings (stub : String → String) (max_segments : Nat)
    (input : PyInput) (target_language source_language : String)
    (optimized : Bool) (st : State) :
    Except ServiceError (List String) × State :=
  match input with
  | .strList ss =>
    if optimized then (.error .invalidArgument, st)
    else
      let r := translate_strings_go stub max_segments ss st
      (.ok r.1, r.2)
  | _ => (.error .invalidArgument, st)

end GoogleAPITranslatorService

/-! ## YandexAPITranslatorService (services.py lines 106-168) -/

namespace YandexAPITranslatorService

/-- Python truthiness of an optional settings string: `None` and the empty
string are falsy (`if self.api_key:` etc., services.py lines 119, 137, 143). -/
def truthy : Option String → Bool
  | none => false
  | some s => !(s == "")

/-- Credentials read from Django settings at construction
(services.py lines 113-115). -/
structure Config where
  api_key : Option String
  iam_token : Option String
  folder_id : Option String
deriving DecidableEq, Repr

/-- `self.api_url` (services.py line 112). -/
def api_url : String := "https://translate.api.cloud.yandex.net/translate/v2/translate"

/-- One HTTP POST request as issued by `requests.post(self.api_url, json=body,
headers=headers)` (line 152): the URL, the JSON body fields of lines 131-135,
and the headers dict of lines 139-142 / 145-148 in insertion order. -/
structure Request where
  url : String
  targetLanguageCode : String
  texts : PyInput
  folderId : Option String
  headers : List (String × String)
deriving DecidableEq, Repr

/-- Instance state: `request_count` (line 116, incremented at line 153) and a
ghost trace of the requests issued, in order. -/
structure State where
  request_count : Nat
  issued : List Request
deriving DecidableEq, Repr

/-- Parsed JSON body of the HTTP response (`response.json()`, line 160),
abstracted to the two fields the code reads: the `error` key if present
(line 163) and the list of the `text` fields of the `translations` items if
that key is present (line 167). -/
structure ResponseData where
  errorField : Option String
  translations : Option (List String)
deriving DecidableEq, Repr

/-- The HTTP response the stubbed network returns: status code, body text and
parsed JSON data. -/
structure HttpResponse where
  status_code : Nat
  text : String
  data : ResponseData
deriving DecidableEq, Repr

/-- `YandexAPITranslatorService.__init__` (services.py lines 111-120):
fails with a `ValueError` unless either the API key, or both the IAM token
and the folder id, are configured (truthy); otherwise yields the initial
state with `request_count = 0`. -/
def init (cfg : Config) : Except ServiceError State :=
  if ¬ truthy cfg.api_key ∧ ¬ (truthy cfg.iam_token ∧ truthy cfg.folder_id) then
    .error (.configurationError
      "Either `YANDEX_API_KEY` or both `YANDEX_IAM_TOKEN` and `YANDEX_FOLDER_ID` must be provided for `YandexAPITranslatorService`")
  else
    .ok { request_count := 0, issued := [] }

/-- `YandexAPITranslatorService.translate_strings` (services.py lines
130-168), with the network stubbed by the fixed response `resp`:
build the JSON body (lines 131-135); pick the `Authorization` scheme —
`Api-Key` when the API key is truthy, else `Bearer` when the IAM token is
truthy, else raise a `ValueError` (lines 137-150); POST and increment
`request_count` (lines 152-153); raise on a non-200 status with the status
code and body text (lines 156-157); raise on an `error` field in the JSON
data (lines 163-164); otherwise return the `text` of each item of
`data.get('translations', [])` in order (lines 167-168).
`source_language` and `optimized` are parameters of the Python signature
that the body never reads.  `texts` is passed through unvalidated. -/
def translate_strings_core (cfg : Config) (resp : HttpResponse)
    (texts : PyInput) (target_language source_language : String)
    (optimized : Bool) (st : State) :
    Except ServiceError (List String) × State :=
  let headers? : Except ServiceError (List (String × String)) :=
    if truthy cfg.api_key then
      .ok [("Content-Type", "application/json"),
           ("Authorization", "Api-Key " ++ cfg.api_key.getD "")]
    else if truthy cfg.iam_token then
      .ok [("Content-Type", "application/json"),
           ("Authorization", "Bearer " ++ cfg.iam_token.getD "")]
    else
      .error (.configurationError
        "Neither Yandex API Key nor IAM Token is provided in the settings.")
  match headers? with
  | .error e => (.error e, st)
  | .ok headers =>
    let req : Request :=
      { url := api_url, targetLanguageCode := target_language,
        texts := texts, folderId := cfg.folder_id, headers := headers }
    let st' : State :=
      { request_count := st.request_count + 1, issued := st.issued ++ [req] }
    if resp.status_code ≠ 200 then
      (.error (.remoteServiceError (some resp.status_code) resp.text), st')
    else
      match resp.data.errorField with
      | some err => (.error (.remoteServiceError none err), st')
      | none => (.ok ((resp.data.translations).getD []), st')

/-- `translate_strings` on a well-shaped batch (a Python list of strings). -/
def translate_strings (cfg : Config) (resp : HttpResponse)
    (strings : List String) (target_language source_language : String)
    (optimized : Bool) (st : State) :
    Except ServiceError (List String) × State :=
  translate_strings_core cfg resp (.strList strings) target_language
    source_language optimized st

/-- `YandexAPITranslatorService.translate_string` (services.py lines
125-128): delegate to `translate_strings` on the single-element batch
(`optimized` left at its default `True`), then return
`translated_text[0] if translated_text else text`. -/
def translate_string (cfg : Config) (resp : HttpResponse)
    (text : String) (target_language source_language : String) (st : State) :
    Except ServiceError String × State :=
  let r := translate_strings cfg resp [text] target_language source_language
    true st
  match r.1 with
  | .error e => (.error e, r.2)
  | .ok translated_text =>
    (.ok (match translated_text with
          | [] => text
          | t :: _ => t), r.2)

end YandexAPITranslatorService

end Autotranslate

/-! ## Theorems -/

section GoogleLemmas

open Autotranslate Autotranslate.GoogleAPITranslatorService

/-- Arithmetic helper: Nat ceiling division `(n + m - 1) / m` is `1` when
`1 ≤ n ≤ m`. -/
lemma ceil_div_eq_one {n m : ℕ} (h1 : 1 ≤ n) (h2 : n ≤ m) :
    (n + m - 1) / m = 1 := by
  have hm : 0 < m := lt_of_lt_of_le h1 h2
  have e : n + m - 1 = (n - 1) + m := by omega
  rw [e, Nat.add_div_right _ hm, Nat.div_eq_of_lt (by omega)]

/-- Arithmetic helper: Nat ceiling division splits off one full chunk. -/
lemma ceil_div_step {n m : ℕ} (hm : 0 < m) (h : m < n) :
    (n + m - 1) / m = ((n - m) + m - 1) / m + 1 := by
  have e : n + m - 1 = ((n - m) + m - 1) + m := by omega
  rw [e, Nat.add_div_right _ hm]

/-- Characterization of the recursive body of the paid-API backend's
`translate_strings` for positive `max_segments` and non-empty input: the
returned list is the incoming buffer followed by the per-item translations in
input order; the final buffer equals that list when the input fits in one
chunk, and is `[]` after a chunked call; `request_count` and the ghost
network-call counter both grow by `⌈length / max_segments⌉`. -/
lemma translate_strings_go_spec (stub : String → String) (m : ℕ)
    (hm : 0 < m) :
    ∀ n (strings : List String) (st : GoogleAPITranslatorService.State),
      strings.length = n → strings ≠ [] →
      translate_strings_go stub m strings st =
        (st.translated_strings ++ strings.map stub,
         { translated_strings :=
             if strings.length ≤ m then st.translated_strings ++ strings.map stub
             else [],
           request_count := st.request_count + (strings.length + m - 1) / m,
           network_calls := st.network_calls + (strings.length + m - 1) / m }) := by
  intro n
  induction n using Nat.strong_induction_on with
  | _ n ih =>
    intro strings st hlen hne
    have h0 : ¬ strings.length = 0 := by
      simpa [List.length_eq_zero] using hne
    rw [translate_strings_go, if_neg h0]
    by_cases hle : strings.length ≤ m
    · rw [if_pos hle, if_pos hle, ceil_div_eq_one (by omega) hle]
    · rw [if_neg hle, if_neg hle, dif_pos hm]
      have hgt : m < strings.length := by omega
      have htake_len : (strings.take m).length = m := by
        simp [List.length_take]
        omega
      have hdrop_len : (strings.drop m).length = strings.length - m := by
        simp
      have htake_ne : strings.take m ≠ [] := by
        intro hcon
        have := congrArg List.length hcon
        simp [htake_len] at this
        omega
      have hdrop_ne : strings.drop m ≠ [] := by
        intro hcon
        have := congrArg List.length hcon
        simp at this
        omega
      have e₁ := ih m (by omega) (strings.take m) st htake_len htake_ne
      rw [htake_len, if_pos (le_refl m)] at e₁
      simp only [e₁]
      have e₂ := ih (strings.length - m) (by omega) (strings.drop m)
        { translated_strings := st.translated_strings ++ List.map stub (strings.take m),
          request_count := st.request_count + (m + m - 1) / m,
          network_calls := st.network_calls + (m + m - 1) / m }
        hdrop_len hdrop_ne
      simp only [e₂]
      have hjoin : (strings.take m).map stub ++ (strings.drop m).map stub
          = strings.map stub := by
        rw [← List.map_append, List.take_append_drop]
      have hceil : (strings.length + m - 1) / m
          = ((strings.length - m) + m - 1) / m + 1 := ceil_div_step hm hgt
      have hone : (m + m - 1) / m = 1 := ceil_div_eq_one hm (le_refl m)
      simp only [hdrop_len, hceil, hone, Prod.mk.injEq,
        GoogleAPITranslatorService.State.mk.injEq]
      refine ⟨by rw [List.append_assoc, hjoin], trivial, by omega, by omega⟩


/-- **C1**: for the paid-API backend, a top-level `translate_strings` call on
a fresh instance, with `optimized = false`, a deterministic per-item stub and
input longer than `max_segments`, returns exactly the input transformed
item-by-item in the original order (hence of the original length), and issues
`⌈length / max_segments⌉` network calls. -/
theorem google_chunking_correct (stub : String → String) (m : ℕ)
    (target source : String) (strings : List String)
    (hm : 0 < m) (hlen : m < strings.length) :
    GoogleAPITranslatorService.translate_strings stub m (.strList strings)
        target source false GoogleAPITranslatorService.fresh =
      (.ok (strings.map stub),
       { translated_strings := [],
         request_count := (strings.length + m - 1) / m,
         network_calls := (strings.length + m - 1) / m }) ∧
    (strings.map stub).length = strings.length := by
  have hne : strings ≠ [] := by
    intro h
    subst h
    simp at hlen
  constructor
  · simp only [GoogleAPITranslatorService.translate_strings, Bool.false_eq_true,
      if_false]
    rw [translate_strings_go_spec stub m hm strings.length strings
      GoogleAPITranslatorService.fresh rfl hne]
    simp [GoogleAPITranslatorService.fresh, if_neg (not_le.2 hlen)]
  · simp

/-- Witness for `google_chunking_correct` at `max_segments = 2` and an input
of length `2 * 2 + 3 = 7`: four network calls, all items translated in
order. -/
theorem google_chunking_correct_witness :
    0 < 2 ∧ 2 < (["a", "b", "c", "d", "e", "f", "g"] : List String).length ∧
    GoogleAPITranslatorService.translate_strings (fun s => s ++ "!") 2
        (.strList ["a", "b", "c", "d", "e", "f", "g"]) "ru" "en" false
        GoogleAPITranslatorService.fresh =
      (.ok ["a!", "b!", "c!", "d!", "e!", "f!", "g!"],
       { translated_strings := [], request_count := 4, network_calls := 4 }) := by
  refine ⟨by decide, by decide, ?_⟩
  have h := google_chunking_correct (fun s => s ++ "!") 2 "ru" "en"
    ["a", "b", "c", "d", "e", "f", "g"] (by decide) (by decide)
  simpa using h.1

/-- **C2 counterexample**: the claim fails for non-chunked calls.  With
`max_segments = 2`, a completed top-level call on `["a"]` leaves the buffer
holding `["a!"]` (not reset to empty), and a subsequent top-level call on
`["b"]` on the same instance returns `["a!", "b!"]`, which contains the item
`"a!"` from the previous call's results. -/
theorem google_buffer_reset_counterexample :
    GoogleAPITranslatorService.translate_strings (fun s => s ++ "!") 2
        (.strList ["a"]) "ru" "en" false GoogleAPITranslatorService.fresh =
      (.ok ["a!"],
       { translated_strings := ["a!"], request_count := 1, network_calls := 1 }) ∧
    ({ translated_strings := ["a!"], request_count := 1, network_calls := 1 }
        : GoogleAPITranslatorService.State).translated_strings ≠ [] ∧
    (GoogleAPITranslatorService.translate_strings (fun s => s ++ "!") 2
        (.strList ["b"]) "ru" "en" false
        { translated_strings := ["a!"], request_count := 1, network_calls := 1 }).1 =
      .ok ["a!", "b!"] := by
  refine ⟨?_, by decide, ?_⟩ <;>
    simp [GoogleAPITranslatorService.translate_strings,
      GoogleAPITranslatorService.translate_strings_go,
      GoogleAPITranslatorService.fresh]

/-- **C2 (amended)**: after every completed top-level CHUNKED call (input
longer than `max_segments`, `optimized = false`), the paid-API backend's
buffer `translated_strings` is reset to the empty state before returning, and
a subsequent non-empty top-level `translate_strings` call on the resulting
instance state returns exactly its own input's translations — no items from
the previous call's results. -/
theorem google_buffer_reset_after_chunked (stub stub₂ : String → String)
    (m : ℕ) (target source : String) (strings strings₂ : List String)
    (st : GoogleAPITranslatorService.State)
    (hm : 0 < m) (hlen : m < strings.length) (hne₂ : strings₂ ≠ []) :
    (GoogleAPITranslatorService.translate_strings stub m (.strList strings)
        target source false st).2.translated_strings = [] ∧
    (GoogleAPITranslatorService.translate_strings stub₂ m (.strList strings₂)
        target source false
        (GoogleAPITranslatorService.translate_strings stub m (.strList strings)
          target source false st).2).1 = .ok (strings₂.map stub₂) := by
  have hne : strings ≠ [] := by
    intro h
    subst h
    simp at hlen
  simp only [GoogleAPITranslatorService.translate_strings, Bool.false_eq_true,
    if_false]
  rw [translate_strings_go_spec stub m hm strings.length strings st rfl hne]
  rw [translate_strings_go_spec stub₂ m hm strings₂.length strings₂ _ rfl hne₂]
  simp [if_neg (not_le.2 hlen)]

/-- Witness for `google_buffer_reset_after_chunked`: a chunked call on
`["a", "b", "c"]` with `max_segments = 2` resets the buffer; the follow-up
call on `["x"]` returns only `["x!"]`. -/
theorem google_buffer_reset_after_chunked_witness :
    0 < 2 ∧ 2 < (["a", "b", "c"] : List String).length ∧
    (["x"] : List String) ≠ [] ∧
    ((GoogleAPITranslatorService.translate_strings (fun s => s ++ "!") 2
        (.strList ["a", "b", "c"]) "ru" "en" false
        GoogleAPITranslatorService.fresh).2.translated_strings = [] ∧
     (GoogleAPITranslatorService.translate_strings (fun s => s ++ "?") 2
        (.strList ["x"]) "ru" "en" false
        (GoogleAPITranslatorService.translate_strings (fun s => s ++ "!") 2
          (.strList ["a", "b", "c"]) "ru" "en" false
          GoogleAPITranslatorService.fresh).2).1 = .ok ["x?"]) := by
  refine ⟨by decide, by decide, by decide, ?_⟩
  have h := google_buffer_reset_after_chunked (fun s => s ++ "!")
    (fun s => s ++ "?") 2 "ru" "en" ["a", "b", "c"] ["x"]
    GoogleAPITranslatorService.fresh (by decide) (by decide) (by decide)
  simpa using h

/-- **C3 counterexample**: `translate_string` issues one network call (the
`.execute()` at services.py lines 78-79) but does not increment
`request_count`: on a fresh instance, after one successful `translate_string`
call the number of network calls issued is `1` while `request_count` is
still `0`. -/
theorem google_request_count_counterexample :
    (GoogleAPITranslatorService.translate_string (fun s => s ++ "!") "hello"
        GoogleAPITranslatorService.fresh).2.network_calls = 1 ∧
    (GoogleAPITranslatorService.translate_string (fun s => s ++ "!") "hello"
        GoogleAPITranslatorService.fresh).2.request_count = 0 := by
  exact ⟨rfl, rfl⟩

/-- **C3 (amended)**: the paid-API backend's `request_count` counts exactly
the network calls issued by `translate_strings` calls: every successful
top-level `translate_strings` call increments `request_count` and the number
of network calls issued by the same (non-negative) amount; `translate_string`,
however, issues one network call without incrementing `request_count`. -/
theorem google_request_count_tracks_translate_strings
    (stub : String → String) (m : ℕ) (target source : String)
    (strings : List String) (text : String)
    (st : GoogleAPITranslatorService.State) (hm : 0 < m) :
    ((GoogleAPITranslatorService.translate_strings stub m (.strList strings)
        target source false st).2.request_count - st.request_count =
      (GoogleAPITranslatorService.translate_strings stub m (.strList strings)
        target source false st).2.network_calls - st.network_calls) ∧
    st.request_count ≤ (GoogleAPITranslatorService.translate_strings stub m
        (.strList strings) target source false st).2.request_count ∧
    st.network_calls ≤ (GoogleAPITranslatorService.translate_strings stub m
        (.strList strings) target source false st).2.network_calls ∧
    (GoogleAPITranslatorService.translate_string stub text st).2.network_calls
      = st.network_calls + 1 ∧
    (GoogleAPITranslatorService.translate_string stub text st).2.request_count
      = st.request_count := by
  refine ⟨?_, ?_, ?_, rfl, rfl⟩ <;>
  · simp only [GoogleAPITranslatorService.translate_strings, Bool.false_eq_true,
      if_false]
    by_cases hne : strings = []
    · subst hne
      simp [GoogleAPITranslatorService.translate_strings_go]
    · rw [translate_strings_go_spec stub m hm strings.length strings st rfl hne]
      simp

/-- Witness for `google_request_count_tracks_translate_strings` at
`max_segments = 2`, a three-item batch and a single-string call. -/
theorem google_request_count_tracks_witness :
    0 < 2 ∧
    (((GoogleAPITranslatorService.translate_strings (fun s => s ++ "!") 2
        (.strList ["a", "b", "c"]) "ru" "en" false
        GoogleAPITranslatorService.fresh).2.request_count -
        GoogleAPITranslatorService.fresh.request_count =
      (GoogleAPITranslatorService.translate_strings (fun s => s ++ "!") 2
        (.strList ["a", "b", "c"]) "ru" "en" false
        GoogleAPITranslatorService.fresh).2.network_calls -
        GoogleAPITranslatorService.fresh.network_calls) ∧
     GoogleAPITranslatorService.fresh.request_count ≤
       (GoogleAPITranslatorService.translate_strings (fun s => s ++ "!") 2
         (.strList ["a", "b", "c"]) "ru" "en" false
         GoogleAPITranslatorService.fresh).2.request_count ∧
     GoogleAPITranslatorService.fresh.network_calls ≤
       (GoogleAPITranslatorService.translate_strings (fun s => s ++ "!") 2
         (.strList ["a", "b", "c"]) "ru" "en" false
         GoogleAPITranslatorService.fresh).2.network_calls ∧
     (GoogleAPITranslatorService.translate_string (fun s => s ++ "!") "hi"
        GoogleAPITranslatorService.fresh).2.network_calls =
       GoogleAPITranslatorService.fresh.network_calls + 1 ∧
     (GoogleAPITranslatorService.translate_string (fun s => s ++ "!") "hi"
        GoogleAPITranslatorService.fresh).2.request_count =
       GoogleAPITranslatorService.fresh.request_count) :=
  ⟨by decide,
   google_request_count_tracks_translate_strings (fun s => s ++ "!") 2 "ru" "en"
     ["a", "b", "c"] "hi" GoogleAPITranslatorService.fresh (by decide)⟩

/-- **C5**: for the paid-API backend, `translate_strings` on an empty input
list (with `optimized = false`) returns the empty sequence immediately, with
the instance state — in particular `request_count` and the number of network
calls issued — unchanged. -/
theorem google_empty_input_short_circuit (stub : String → String) (m : ℕ)
    (target source : String) (st : GoogleAPITranslatorService.State) :
    GoogleAPITranslatorService.translate_strings stub m (.strList [])
      target source false st = (.ok [], st) := by
  simp [GoogleAPITranslatorService.translate_strings,
    GoogleAPITranslatorService.translate_strings_go]

end GoogleLemmas

section YandexLemmas

open Autotranslate Autotranslate.YandexAPITranslatorService

/-- State change of the cloud backend's `translate_strings` body whenever at
least one credential is truthy: exactly one request is issued (appended to
the ghost trace) and `request_count` grows by one, regardless of the HTTP
response — the POST of line 152 and the increment of line 153 happen before
any response check. -/
lemma yandex_core_state (cfg : Config) (resp : HttpResponse) (texts : PyInput)
    (target source : String) (optimized : Bool) (st : State)
    (hcred : truthy cfg.api_key = true ∨ truthy cfg.iam_token = true) :
    (translate_strings_core cfg resp texts target source optimized st).2 =
      { request_count := st.request_count + 1,
        issued := st.issued ++
          [{ url := api_url, targetLanguageCode := target, texts := texts,
             folderId := cfg.folder_id,
             headers :=
               if truthy cfg.api_key then
                 [("Content-Type", "application/json"),
                  ("Authorization", "Api-Key " ++ cfg.api_key.getD "")]
               else
                 [("Content-Type", "application/json"),
                  ("Authorization", "Bearer " ++ cfg.iam_token.getD "")] }] } := by
  unfold translate_strings_core
  by_cases hak : truthy cfg.api_key = true
  · simp only [hak, if_true]
    split
    · rfl
    · cases resp.data.errorField <;> rfl
  · have hiam : truthy cfg.iam_token = true := by tauto
    have hak' : truthy cfg.api_key = false := by simpa using hak
    simp only [hak', hiam, Bool.false_eq_true, if_false, if_true]
    split
    · rfl
    · cases resp.data.errorField <;> rfl

/-- Result of the cloud backend's `translate_strings` body whenever at least
one credential is truthy: an error carrying status code and body text on a
non-200 status, an error carrying the embedded `error` payload otherwise when
present, and otherwise the `text` fields of `data.get('translations', [])`. -/
lemma yandex_core_result (cfg : Config) (resp : HttpResponse) (texts : PyInput)
    (target source : String) (optimized : Bool) (st : State)
    (hcred : truthy cfg.api_key = true ∨ truthy cfg.iam_token = true) :
    (translate_strings_core cfg resp texts target source optimized st).1 =
      if resp.status_code ≠ 200 then
        .error (.remoteServiceError (some resp.status_code) resp.text)
      else
        match resp.data.errorField with
        | some err => .error (.remoteServiceError none err)
        | none => .ok ((resp.data.translations).getD []) := by
  unfold translate_strings_core
  by_cases hak : truthy cfg.api_key = true
  · simp only [hak, if_true]
    split
    · rfl
    · cases resp.data.errorField <;> rfl
  · have hiam : truthy cfg.iam_token = true := by tauto
    have hak' : truthy cfg.api_key = false := by simpa using hak
    simp only [hak', hiam, Bool.false_eq_true, if_false, if_true]
    split
    · rfl
    · cases resp.data.errorField <;> rfl

/-- **C4 counterexample**: the cloud backend (`YandexAPITranslatorService`)
performs no input validation: called with a non-iterable `strings` argument it
does not fail with `InvalidArgument` before any network call — it issues the
network request (one request in the trace, `request_count` incremented) and
returns normally (HTTP 200 stub). -/
theorem backend_input_validation_counterexample :
    (YandexAPITranslatorService.translate_strings_core
        { api_key := some "k", iam_token := none, folder_id := some "f" }
        { status_code := 200, text := "",
          data := { errorField := none, translations := some [] } }
        .notIterable "ru" "en" true { request_count := 0, issued := [] }).1 =
      .ok [] ∧
    (YandexAPITranslatorService.translate_strings_core
        { api_key := some "k", iam_token := none, folder_id := some "f" }
        { status_code := 200, text := "",
          data := { errorField := none, translations := some [] } }
        .notIterable "ru" "en" true { request_count := 0, issued := [] }).2.request_count = 1 ∧
    (YandexAPITranslatorService.translate_strings_core
        { api_key := some "k", iam_token := none, folder_id := some "f" }
        { status_code := 200, text := "",
          data := { errorField := none, translations := some [] } }
        .notIterable "ru" "en" true { request_count := 0, issued := [] }).2.issued.length = 1 :=
  ⟨rfl, rfl, rfl⟩

/-- **C4 (amended)**: the free and paid backends reject a non-iterable
`strings` argument with `InvalidArgument` before any network call, and the
paid backend, requiring indexable input, additionally rejects a non-indexable
iterable; the cloud backend performs no input validation and issues the
network request regardless of the input's shape. -/
theorem backend_input_validation (stub₁ stub₂ : String → String) (m : ℕ)
    (target source : String) (optimized : Bool) (input : PyInput)
    (ss : List String)
    (st₁ : GoSlateTranslatorService.State)
    (st₂ : GoogleAPITranslatorService.State)
    (cfg : Config) (resp : HttpResponse) (st₃ : State)
    (hni : input.isIterable = false)
    (hcred : truthy cfg.api_key = true ∨ truthy cfg.iam_token = true) :
    GoSlateTranslatorService.translate_strings stub₁ input target source
      optimized st₁ = (.error .invalidArgument, st₁) ∧
    GoogleAPITranslatorService.translate_strings stub₂ m input target source
      optimized st₂ = (.error .invalidArgument, st₂) ∧
    GoogleAPITranslatorService.translate_strings stub₂ m (.generator ss)
      target source optimized st₂ = (.error .invalidArgument, st₂) ∧
    (translate_strings_core cfg resp input target source optimized
      st₃).2.request_count = st₃.request_count + 1 ∧
    (translate_strings_core cfg resp input target source optimized
      st₃).2.issued.length = st₃.issued.length + 1 := by
  cases input with
  | strList ss' => simp [PyInput.isIterable] at hni
  | generator ss' => simp [PyInput.isIterable] at hni
  | notIterable =>
    refine ⟨rfl, rfl, rfl, ?_, ?_⟩ <;>
    · rw [yandex_core_state cfg resp .notIterable target source optimized st₃
        hcred]
      try simp

/-- Witness for `backend_input_validation` with a non-iterable input and an
API-key-configured cloud backend. -/
theorem backend_input_validation_witness :
    (PyInput.notIterable.isIterable = false ∧
     (truthy (Config.mk (some "k") none (some "f")).api_key = true ∨
      truthy (Config.mk (some "k") none (some "f")).iam_token = true)) ∧
    (GoSlateTranslatorService.translate_strings (fun s => s ++ "!")
        .notIterable "ru" "en" true { network_calls := 0 } =
      (.error .invalidArgument, { network_calls := 0 }) ∧
     GoogleAPITranslatorService.translate_strings (fun s => s ++ "!") 2
        .notIterable "ru" "en" true GoogleAPITranslatorService.fresh =
      (.error .invalidArgument, GoogleAPITranslatorService.fresh) ∧
     GoogleAPITranslatorService.translate_strings (fun s => s ++ "!") 2
        (.generator ["a"]) "ru" "en" true GoogleAPITranslatorService.fresh =
      (.error .invalidArgument, GoogleAPITranslatorService.fresh) ∧
     (translate_strings_core (Config.mk (some "k") none (some "f"))
        (HttpResponse.mk 200 "" (ResponseData.mk none (some [])))
        .notIterable "ru" "en" true
        (State.mk 0 [])).2.request_count = (State.mk 0 []).request_count + 1 ∧
     (translate_strings_core (Config.mk (some "k") none (some "f"))
        (HttpResponse.mk 200 "" (ResponseData.mk none (some [])))
        .notIterable "ru" "en" true
        (State.mk 0 [])).2.issued.length = (State.mk 0 []).issued.length + 1) :=
  ⟨⟨by decide, by decide⟩,
   backend_input_validation (fun s => s ++ "!") (fun s => s ++ "!") 2 "ru" "en"
     true .notIterable ["a"] { network_calls := 0 }
     GoogleAPITranslatorService.fresh (Config.mk (some "k") none (some "f"))
     (HttpResponse.mk 200 "" (ResponseData.mk none (some [])))
     (State.mk 0 []) (by decide) (by decide)⟩

/-- **C6**: for the cloud backend, whenever both the API key and the IAM
token are configured (truthy), the one request issued by `translate_strings`
carries the `Authorization` header in the API-key scheme
(`"Api-Key <key>"`), not the bearer-token scheme. -/
theorem yandex_api_key_precedence (cfg : Config) (resp : HttpResponse)
    (strings : List String) (target source : String) (optimized : Bool)
    (st : State)
    (hak : truthy cfg.api_key = true) (hiam : truthy cfg.iam_token = true) :
    (translate_strings cfg resp strings target source optimized st).2.issued =
      st.issued ++
        [{ url := api_url, targetLanguageCode := target,
           texts := .strList strings, folderId := cfg.folder_id,
           headers := [("Content-Type", "application/json"),
                       ("Authorization", "Api-Key " ++ cfg.api_key.getD "")] }] := by
  unfold translate_strings
  rw [yandex_core_state cfg resp (.strList strings) target source optimized st
    (Or.inl hak)]
  simp [hak]

/-- Witness for `yandex_api_key_precedence` with both credentials set. -/
theorem yandex_api_key_precedence_witness :
    (truthy (Config.mk (some "k") (some "t") (some "f")).api_key = true ∧
     truthy (Config.mk (some "k") (some "t") (some "f")).iam_token = true) ∧
    (translate_strings (Config.mk (some "k") (some "t") (some "f"))
        (HttpResponse.mk 200 "" (ResponseData.mk none (some ["x"])))
        ["hello"] "ru" "en" true (State.mk 0 [])).2.issued =
      (State.mk 0 []).issued ++
        [{ url := api_url, targetLanguageCode := "ru",
           texts := .strList ["hello"],
           folderId := (Config.mk (some "k") (some "t") (some "f")).folder_id,
           headers := [("Content-Type", "application/json"),
                       ("Authorization",
                        "Api-Key " ++ (Config.mk (some "k") (some "t") (some "f")).api_key.getD "")] }] :=
  ⟨⟨by decide, by decide⟩,
   yandex_api_key_precedence (Config.mk (some "k") (some "t") (some "f"))
     (HttpResponse.mk 200 "" (ResponseData.mk none (some ["x"])))
     ["hello"] "ru" "en" true (State.mk 0 []) (by decide) (by decide)⟩

/-- **C7**: for the cloud backend (validly configured), `translate_strings`
fails with `RemoteServiceError` carrying the HTTP status code and the body
text whenever the response status is not 200 (response `resp₁`), and also
fails with `RemoteServiceError` carrying the embedded error payload whenever
the status is 200 but the parsed JSON body contains an `error` field
(response `resp₂`). -/
theorem yandex_error_surfacing (cfg : Config) (resp₁ resp₂ : HttpResponse)
    (strings : List String) (target source : String) (optimized : Bool)
    (st : State) (err : String)
    (hcred : truthy cfg.api_key = true ∨ truthy cfg.iam_token = true)
    (h1 : resp₁.status_code ≠ 200)
    (h2 : resp₂.status_code = 200) (h3 : resp₂.data.errorField = some err) :
    (translate_strings cfg resp₁ strings target source optimized st).1 =
      .error (.remoteServiceError (some resp₁.status_code) resp₁.text) ∧
    (translate_strings cfg resp₂ strings target source optimized st).1 =
      .error (.remoteServiceError none err) := by
  unfold translate_strings
  constructor
  · rw [yandex_core_result cfg resp₁ (.strList strings) target source optimized
      st hcred]
    simp [h1]
  · rw [yandex_core_result cfg resp₂ (.strList strings) target source optimized
      st hcred]
    simp [h2, h3]

/-- Witness for `yandex_error_surfacing`: a 500 response with body
"Internal Server Error", and a 200 response with an embedded error field. -/
theorem yandex_error_surfacing_witness :
    (truthy (Config.mk (some "k") none (some "f")).api_key = true ∨
     truthy (Config.mk (some "k") none (some "f")).iam_token = true) ∧
    ((HttpResponse.mk 500 "Internal Server Error"
        (ResponseData.mk none none)).status_code ≠ 200 ∧
     (HttpResponse.mk 200 "{}"
        (ResponseData.mk (some "bad folder") none)).status_code = 200 ∧
     (HttpResponse.mk 200 "{}"
        (ResponseData.mk (some "bad folder") none)).data.errorField =
       some "bad folder") ∧
    ((translate_strings (Config.mk (some "k") none (some "f"))
        (HttpResponse.mk 500 "Internal Server Error" (ResponseData.mk none none))
        ["hello"] "ru" "en" true (State.mk 0 [])).1 =
      .error (.remoteServiceError
        (some (HttpResponse.mk 500 "Internal Server Error"
          (ResponseData.mk none none)).status_code)
        (HttpResponse.mk 500 "Internal Server Error"
          (ResponseData.mk none none)).text) ∧
     (translate_strings (Config.mk (some "k") none (some "f"))
        (HttpResponse.mk 200 "{}" (ResponseData.mk (some "bad folder") none))
        ["hello"] "ru" "en" true (State.mk 0 [])).1 =
      .error (.remoteServiceError none "bad folder")) :=
  ⟨by decide, ⟨by decide, by decide, by decide⟩,
   yandex_error_surfacing (Config.mk (some "k") none (some "f"))
     (HttpResponse.mk 500 "Internal Server Error" (ResponseData.mk none none))
     (HttpResponse.mk 200 "{}" (ResponseData.mk (some "bad folder") none))
     ["hello"] "ru" "en" true (State.mk 0 []) "bad folder"
     (by decide) (by decide) (by decide) (by decide)⟩

/-- **C8**: for the cloud backend (validly configured), on a successful
response `translate_string` returns the original input text unchanged when
the response contains zero translations (response `resp₁`), and the first
element of the translated batch otherwise (response `resp₂`). -/
theorem yandex_translate_string_fallback (cfg : Config)
    (resp₁ resp₂ : HttpResponse) (text target source : String) (st : State)
    (t : String) (ts : List String)
    (hcred : truthy cfg.api_key = true ∨ truthy cfg.iam_token = true)
    (h200₁ : resp₁.status_code = 200) (herr₁ : resp₁.data.errorField = none)
    (hempty : (resp₁.data.translations).getD [] = [])
    (h200₂ : resp₂.status_code = 200) (herr₂ : resp₂.data.errorField = none)
    (hcons : (resp₂.data.translations).getD [] = t :: ts) :
    (translate_string cfg resp₁ text target source st).1 = .ok text ∧
    (translate_string cfg resp₂ text target source st).1 = .ok t := by
  unfold translate_string translate_strings
  constructor
  · rw [show (translate_strings_core cfg resp₁ (.strList [text]) target source
        true st) =
      ((translate_strings_core cfg resp₁ (.strList [text]) target source
        true st).1,
       (translate_strings_core cfg resp₁ (.strList [text]) target source
        true st).2) from rfl]
    rw [yandex_core_result cfg resp₁ (.strList [text]) target source true st
      hcred]
    simp [h200₁, herr₁, hempty]
  · rw [show (translate_strings_core cfg resp₂ (.strList [text]) target source
        true st) =
      ((translate_strings_core cfg resp₂ (.strList [text]) target source
        true st).1,
       (translate_strings_core cfg resp₂ (.strList [text]) target source
        true st).2) from rfl]
    rw [yandex_core_result cfg resp₂ (.strList [text]) target source true st
      hcred]
    simp [h200₂, herr₂, hcons]

/-- Witness for `yandex_translate_string_fallback`: an empty-translations
response yields the input back; a one-translation response yields that
translation. -/
theorem yandex_translate_string_fallback_witness :
    ((truthy (Config.mk (some "k") none (some "f")).api_key = true ∨
      truthy (Config.mk (some "k") none (some "f")).iam_token = true) ∧
     (HttpResponse.mk 200 "{}" (ResponseData.mk none (some []))).status_code = 200 ∧
     (HttpResponse.mk 200 "{}" (ResponseData.mk none (some []))).data.errorField = none ∧
     ((HttpResponse.mk 200 "{}" (ResponseData.mk none (some []))).data.translations).getD [] = [] ∧
     (HttpResponse.mk 200 "{}" (ResponseData.mk none (some ["bonjour"]))).status_code = 200 ∧
     (HttpResponse.mk 200 "{}" (ResponseData.mk none (some ["bonjour"]))).data.errorField = none ∧
     ((HttpResponse.mk 200 "{}" (ResponseData.mk none (some ["bonjour"]))).data.translations).getD []
       = "bonjour" :: []) ∧
    ((translate_string (Config.mk (some "k") none (some "f"))
        (HttpResponse.mk 200 "{}" (ResponseData.mk none (some [])))
        "hello" "fr" "en" (State.mk 0 [])).1 = .ok "hello" ∧
     (translate_string (Config.mk (some "k") none (some "f"))
        (HttpResponse.mk 200 "{}" (ResponseData.mk none (some ["bonjour"])))
        "hello" "fr" "en" (State.mk 0 [])).1 = .ok "bonjour") :=
  ⟨⟨by decide, by decide, by decide, by decide, by decide, by decide, by decide⟩,
   yandex_translate_string_fallback (Config.mk (some "k") none (some "f"))
     (HttpResponse.mk 200 "{}" (ResponseData.mk none (some [])))
     (HttpResponse.mk 200 "{}" (ResponseData.mk none (some ["bonjour"])))
     "hello" "fr" "en" (State.mk 0 []) "bonjour" []
     (by decide) (by decide) (by decide) (by decide) (by decide) (by decide)
     (by decide)⟩

/-- **C9**: for the cloud backend (validly configured), a 200 response with
no embedded error whose JSON body lacks the `translations` key makes
`translate_strings` return the empty list rather than raise
(`data.get('translations', [])`, services.py line 167). -/
theorem yandex_missing_translations_key (cfg : Config) (resp : HttpResponse)
    (strings : List String) (target source : String) (optimized : Bool)
    (st : State)
    (hcred : truthy cfg.api_key = true ∨ truthy cfg.iam_token = true)
    (h200 : resp.status_code = 200) (herr : resp.data.errorField = none)
    (hkey : resp.data.translations = none) :
    (translate_strings cfg resp strings target source optimized st).1 =
      .ok [] := by
  unfold translate_strings
  rw [yandex_core_result cfg resp (.strList strings) target source optimized st
    hcred]
  simp [h200, herr, hkey]

/-- Witness for `yandex_missing_translations_key`. -/
theorem yandex_missing_translations_key_witness :
    ((truthy (Config.mk (some "k") none (some "f")).api_key = true ∨
      truthy (Config.mk (some "k") none (some "f")).iam_token = true) ∧
     (HttpResponse.mk 200 "{}" (ResponseData.mk none none)).status_code = 200 ∧
     (HttpResponse.mk 200 "{}" (ResponseData.mk none none)).data.errorField = none ∧
     (HttpResponse.mk 200 "{}" (ResponseData.mk none none)).data.translations = none) ∧
    (translate_strings (Config.mk (some "k") none (some "f"))
        (HttpResponse.mk 200 "{}" (ResponseData.mk none none))
        ["hello"] "ru" "en" true (State.mk 0 [])).1 = .ok [] :=
  ⟨⟨by decide, by decide, by decide, by decide⟩,
   yandex_missing_translations_key (Config.mk (some "k") none (some "f"))
     (HttpResponse.mk 200 "{}" (ResponseData.mk none none))
     ["hello"] "ru" "en" true (State.mk 0 [])
     (by decide) (by decide) (by decide) (by decide)⟩

/-- **C10**: for the cloud backend, the entire outcome of `translate_strings`
— the returned sequence and the final state, including the issued request's
body and headers in the ghost trace — is independent of the
`source_language` and `optimized` arguments: two calls identical except in
those two arguments coincide. -/
theorem yandex_source_optimized_independence (cfg : Config)
    (resp : HttpResponse) (strings : List String) (target : String)
    (source₁ source₂ : String) (optimized₁ optimized₂ : Bool) (st : State) :
    translate_strings cfg resp strings target source₁ optimized₁ st =
      translate_strings cfg resp strings target source₂ optimized₂ st := rfl

end YandexLemmas
